import Mathlib

/-!
Shallow embedding of the ExpensesHelperBot repository (src/excel_work.py and
src/bot.py): the spreadsheet cell model, the column-range summation of
read_cells, the last-data-column scan of get_last_month, the month-to-column
dictionary of main, the balance calculation and message printing at the end
of main, the spreadsheet-access sequencing of main, and the expenses slash
command of the bot.
-/

/-- A spreadsheet cell value as observed through openpyxl with data_only=True:
a numeric value (modelled as an integer; every value appearing in the spec
scenarios is an integer), a text value, or an empty cell (Python None). -/
inductive CellVal where
  | empty
  | intV (n : ℤ)
  | strV (s : String)
  deriving DecidableEq

/-- A sheet: a total grid addressed by (row, column). -/
def Sheet : Type := ℕ → ℕ → CellVal

/-- Python truthiness of a cell value: None is falsy, a number is truthy iff
it is nonzero, a string is truthy iff it is nonempty. Embeds the test
`if cell_value:` in read_cells. -/
def pyTruthy : CellVal → Bool
  | CellVal.empty => false
  | CellVal.intV n => n != 0
  | CellVal.strV s => s != ""

/-- Python str() of a cell value, as used by get_last_month. -/
def pyStr : CellVal → String
  | CellVal.empty => "None"
  | CellVal.intV n => toString n
  | CellVal.strV s => s

/-- A cell value that read_cells can process without raising: a truthy value
must be numeric, since a truthy string raises TypeError when added to the
running integer total. -/
def okCell : CellVal → Bool
  | CellVal.strV s => s == ""
  | _ => true

/-- The numeric content of a cell (0 for non-numeric cells). -/
def cellNum : CellVal → ℤ
  | CellVal.intV n => n
  | _ => 0

/-- The contribution of one cell to a read_cells total: its numeric value if
truthy, otherwise 0 (the cell is skipped by the `if cell_value:` test). -/
def truthyVal (v : CellVal) : ℤ := if pyTruthy v then cellNum v else 0

/-- One primitive spreadsheet access. read_cells only ever performs readOp;
writeOp is part of the model so that the absence of writes is a provable
statement rather than a typing accident. -/
inductive SheetOp where
  | readOp (row col : ℕ)
  | writeOp (row col : ℕ) (v : CellVal)
  deriving DecidableEq

def isReadOp : SheetOp → Bool
  | SheetOp.readOp _ _ => true
  | SheetOp.writeOp _ _ _ => false

/-- Effect of one access on the sheet: a read leaves it unchanged, a write
updates one cell. -/
def applyOp (sheet : Sheet) : SheetOp → Sheet
  | SheetOp.readOp _ _ => sheet
  | SheetOp.writeOp r c v => fun r0 c0 => if r0 = r ∧ c0 = c then v else sheet r0 c0

def applyOps (sheet : Sheet) (ops : List SheetOp) : Sheet := ops.foldl applyOp sheet

/-- The fixed expense rows of read_cells: row_number = [16, 24, 39, 52]. -/
def row_number : List ℕ := [16, 24, 39, 52]

/-- Inner loop of read_cells over the expense rows at one column: each cell is
read; a truthy numeric value is added to the running total; a truthy
non-numeric value raises TypeError, modelled as none, the trace ending at the
offending read. -/
def sumRowsT (sheet : Sheet) (col : ℕ) : List ℕ → ℤ → Option ℤ × List SheetOp
  | [], acc => (some acc, [])
  | r :: rest, acc =>
    let v := sheet r col
    if pyTruthy v then
      match v with
      | CellVal.intV n =>
        let p := sumRowsT sheet col rest (acc + n)
        (p.1, SheetOp.readOp r col :: p.2)
      | _ => (none, [SheetOp.readOp r col])
    else
      let p := sumRowsT sheet col rest acc
      (p.1, SheetOp.readOp r col :: p.2)

/-- Outer loop of read_cells over the month columns: the running total is
threaded through each column; a raise in one column aborts the rest. -/
def sumColsT (sheet : Sheet) (rows : List ℕ) : List ℕ → ℤ → Option ℤ × List SheetOp
  | [], acc => (some acc, [])
  | c :: rest, acc =>
    let p := sumRowsT sheet c rows acc
    match p.1 with
    | some acc2 =>
      let q := sumColsT sheet rows rest acc2
      (q.1, p.2 ++ q.2)
    | none => (none, p.2)

/-- read_cells of src/excel_work.py instrumented with its access trace:
for col in range(start_col, last_column), for row in the row set, read the
cell and add truthy values to total, which starts at 0. The row set is a
parameter (the source fixes it to row_number); this is the contract
sum_range(sheet, row_set, start_col, end_col) of the spec, whose loop body
is taken verbatim from read_cells. -/
def read_cellsT (sheet : Sheet) (rows : List ℕ) (start_col last_column : ℕ) :
    Option ℤ × List SheetOp :=
  sumColsT sheet rows (List.range' start_col (last_column - start_col)) 0

/-- The value computed by the read_cells loop for an arbitrary row set. -/
def sumRange (sheet : Sheet) (rows : List ℕ) (start_col last_column : ℕ) : Option ℤ :=
  (read_cellsT sheet rows start_col last_column).1

/-- read_cells as in the source: the row set is the fixed row_number. -/
def read_cells (sheet : Sheet) (start_col last_column : ℕ) : Option ℤ :=
  sumRange sheet row_number start_col last_column

/-- Modelled from the spec: the sum of exactly the truthy (non-empty,
non-zero-equivalent) cell values in the rectangle, for comparison with the
value read_cells computes. -/
def rectTruthySum (sheet : Sheet) (rows : List ℕ) (start_col last_column : ℕ) : ℤ :=
  ((List.range' start_col (last_column - start_col)).map
    (fun c => (rows.map (fun r => truthyVal (sheet r c))).sum)).sum

/-- Python str.strip(): removes leading and trailing whitespace. -/
def pyStrip (s : String) : String :=
  String.mk (((s.data.dropWhile Char.isWhitespace).reverse.dropWhile Char.isWhitespace).reverse)

/-- Python str.lower(). -/
def pyLower (s : String) : String := String.mk (s.data.map Char.toLower)

/-- Stopping test of get_last_month on a header-row cell:
cell_value is None or str(cell_value).strip() == "0". -/
def stopCell (v : CellVal) : Bool :=
  match v with
  | CellVal.empty => true
  | v => pyStrip (pyStr v) == "0"

/-- The loop of get_last_month, structurally recursive on the number of
remaining iterations: for col in range(3, 15), read sheet.cell(row=16,
column=col); break at the first stopping column; when the loop exhausts, the
loop variable retains its last value 14. Returns the resulting col together
with the (row, column) pairs read. -/
def glmAux (sheet : Sheet) : ℕ → ℕ → ℕ × List (ℕ × ℕ)
  | 0, _ => (14, [])
  | k + 1, c =>
    if stopCell (sheet 16 c) then (c, [(16, c)])
    else
      let p := glmAux sheet k (c + 1)
      (p.1, (16, c) :: p.2)

/-- get_last_month of src/excel_work.py: the 12 iterations of
for col in range(3, 15), starting at column 3, on header row 16. -/
def get_last_month (sheet : Sheet) : ℕ := (glmAux sheet 12 3).1

/-- The month_to_col dictionary of main: three-letter month abbreviations of
the two language variants, each mapped to its column. -/
def monthPairs : List (String × ℕ) :=
  [("jan", 3), ("fev", 4), ("feb", 4), ("mar", 5), ("abr", 6), ("apr", 6),
   ("mai", 7), ("may", 7), ("jun", 8), ("jul", 9), ("ago", 10), ("aug", 10),
   ("set", 11), ("sep", 11), ("out", 12), ("oct", 12), ("nov", 13),
   ("dez", 14), ("dec", 14)]

/-- month_to_col.get(user_month) of main; .get yields none when the token is
absent. -/
def month_to_col (s : String) : Option ℕ := monthPairs.lookup s

/-- The keys of the month_to_col dictionary. -/
def monthKeys : List String := monthPairs.map Prod.fst

/-- Python round to the nearest integer; halves go to the even neighbour. -/
def bankersRound (y : ℚ) : ℤ :=
  if y - ⌊y⌋ < 1 / 2 then ⌊y⌋
  else if 1 / 2 < y - ⌊y⌋ then ⌊y⌋ + 1
  else if ⌊y⌋ % 2 = 0 then ⌊y⌋
  else ⌊y⌋ + 1

/-- Python round(x, 2). -/
def roundTo2 (x : ℚ) : ℚ := (bankersRound (x * 100) : ℚ) / 100

/-- What main prints after computing final_value: the two print branches of
the source, and noMsg when neither fires (the source has no branch for a
zero final_value). The amount carried is exactly the final_value
interpolated into the f-string of that branch. -/
inductive BalanceMsg where
  | owes2to1 (amount : ℚ)
  | owes1to2 (amount : ℚ)
  | noMsg
  deriving DecidableEq

def balanceMessage (v : ℚ) : BalanceMsg :=
  if 0 < v then BalanceMsg.owes2to1 v
  else if v < 0 then BalanceMsg.owes1to2 v
  else BalanceMsg.noMsg

/-- final_value = round(value_1 - value_2, 2) together with the message
printed for it (src/excel_work.py lines 350-356). -/
def computeBalance (a b : ℚ) : ℚ × BalanceMsg :=
  let v := roundTo2 (a - b)
  (v, balanceMessage v)

/-- Top-level names bound in the excel_work module: its imported names and
its def statements (write_cell is commented out in the source, so it binds
no name). -/
def excelWorkDefs : List String :=
  ["os", "io", "load_dotenv", "build", "MediaIoBaseDownload", "MediaFileUpload",
   "Request", "Credentials", "InstalledAppFlow", "load_workbook", "utils",
   "SCOPES", "authenticate_google_drive", "download_file_by_id",
   "get_file_for_editing", "save_file_back_to_drive", "update_file_content",
   "edit_file_workflow", "read_cells", "get_last_month", "main"]

/-- Python attribute lookup on the excel_work module. -/
def excelWorkHasAttr (name : String) : Bool := excelWorkDefs.contains name

/-- Reply sent by the expenses slash command of src/bot.py: the followup with
the result, or the followup produced by the except branch. -/
inductive BotReply where
  | result (text : String)
  | error
  deriving DecidableEq

/-- The expenses command body: it evaluates excel_work.main_function(month).
If the attribute existed, the call result would be relayed in the followup
(that branch is dead code, kept to mirror the source); the attribute is
absent, so the lookup raises AttributeError and the except branch sends the
error reply. -/
def expensesCommand (month : String) : BotReply :=
  if excelWorkHasAttr "main_function" then BotReply.result month
  else BotReply.error

/-- Observable spreadsheet activity during one run of main. -/
inductive MainEvent where
  | download
  | cellRead (sheetName : String) (row col : ℕ)
  | cellWrite (sheetName : String) (row col : ℕ)
  deriving DecidableEq

/-- Outcome of one run of main: the returned final_value with the printed
balance message, or an uncaught Python exception. -/
inductive MainOutcome where
  | result (finalValue : ℚ) (printed : BalanceMsg)
  | pyError
  deriving DecidableEq

def opEvents (sheetName : String) (ops : List SheetOp) : List MainEvent :=
  ops.map fun op =>
    match op with
    | SheetOp.readOp r c => MainEvent.cellRead sheetName r c
    | SheetOp.writeOp r c _ => MainEvent.cellWrite sheetName r c

/-- mainRun embeds main of src/excel_work.py as a function of the workbook contents, the two
configured sheet names and the line read from standard input: it downloads
the file, runs get_last_month on sheet_1, and only then reads the month from
stdin, lowered and stripped, and looks it up in month_to_col. On a missing
token, .get yields None, the else branch still runs, and read_cells raises
TypeError at range(None, last_month), before reading any cell; otherwise
both sheets are summed and the balance message printed. Returns the outcome
together with the spreadsheet accesses in order. -/
def mainRun (wb : String → Sheet) (sheet_1 sheet_2 : String) (stdinMonth : String) :
    MainOutcome × List MainEvent :=
  let lm := glmAux (wb sheet_1) 12 3
  let ev1 := MainEvent.download :: lm.2.map (fun rc => MainEvent.cellRead sheet_1 rc.1 rc.2)
  let user_month := pyStrip (pyLower stdinMonth)
  match month_to_col user_month with
  | none => (MainOutcome.pyError, ev1)
  | some start_col =>
    let p1 := read_cellsT (wb sheet_1) row_number start_col lm.1
    match p1.1 with
    | none => (MainOutcome.pyError, ev1 ++ opEvents sheet_1 p1.2)
    | some value_1 =>
      let p2 := read_cellsT (wb sheet_2) row_number start_col lm.1
      match p2.1 with
      | none => (MainOutcome.pyError, ev1 ++ opEvents sheet_1 p1.2 ++ opEvents sheet_2 p2.2)
      | some value_2 =>
        let fin := computeBalance (value_1 : ℚ) (value_2 : ℚ)
        (MainOutcome.result fin.1 fin.2,
         ev1 ++ opEvents sheet_1 p1.2 ++ opEvents sheet_2 p2.2)

/-- Scenario sheet of participant A: rows 16, 24, 39, 52 at columns 3 to 5
hold [10, 0, null], [5, 5, 5], [0, 0, 0], [20, 0, 0]. -/
def sheetA : Sheet := fun row col =>
  if row = 16 then
    (if col = 3 then CellVal.intV 10
     else if col = 4 then CellVal.intV 0
     else CellVal.empty)
  else if row = 24 then
    (if col = 3 ∨ col = 4 ∨ col = 5 then CellVal.intV 5 else CellVal.empty)
  else if row = 39 then
    (if col = 3 ∨ col = 4 ∨ col = 5 then CellVal.intV 0 else CellVal.empty)
  else if row = 52 then
    (if col = 3 then CellVal.intV 20
     else if col = 4 ∨ col = 5 then CellVal.intV 0
     else CellVal.empty)
  else CellVal.empty

/-- Scenario sheet of participant B: all zeros. -/
def sheetB : Sheet := fun _ _ => CellVal.intV 0

/-- Scenario header sheet for get_last_month: header row 16 holds
[100, 50, 0, None, ...] starting at column 3. -/
def headerSheet : Sheet := fun row col =>
  if row = 16 then
    (if col = 3 then CellVal.intV 100
     else if col = 4 then CellVal.intV 50
     else if col = 5 then CellVal.intV 0
     else CellVal.empty)
  else CellVal.empty

/-- A sheet with every cell empty. -/
def emptySheet : Sheet := fun _ _ => CellVal.empty

/-- Workbook used to run main concretely: the sheet names resolve to the two
scenario sheets. -/
def wbEx : String → Sheet := fun name => if name = "sheet1" then sheetA else sheetB


/-! Characterization lemmas for the read_cells loops. -/

/-- The value computed by the inner row loop: the running total plus the
truthy values of the row cells at this column, provided every truthy cell is
numeric; otherwise the TypeError, i.e. none. -/
lemma sumRowsT_fst (sheet : Sheet) (col : ℕ) :
    ∀ (rows : List ℕ) (acc : ℤ),
      (sumRowsT sheet col rows acc).1 =
        if rows.all (fun r => okCell (sheet r col))
        then some (acc + (rows.map (fun r => truthyVal (sheet r col))).sum)
        else none := by
  intro rows
  induction rows with
  | nil => intro acc; simp [sumRowsT]
  | cons r rest ih =>
    intro acc
    simp only [sumRowsT, List.all_cons, List.map_cons, List.sum_cons]
    cases hv : sheet r col with
    | empty =>
      simp [pyTruthy, okCell, truthyVal, ih, cellNum]
    | intV n =>
      by_cases hn : n = 0
      · subst hn
        simp [pyTruthy, okCell, truthyVal, ih, cellNum]
      · have ht : pyTruthy (CellVal.intV n) = true := by simp [pyTruthy, hn]
        simp [ht, ih, okCell, truthyVal, cellNum]
        split_ifs with h
        · congr 1
          ring
        · rfl
    | strV s =>
      by_cases hs : s = ""
      · subst hs
        simp [pyTruthy, okCell, truthyVal, ih, cellNum]
      · have ht : pyTruthy (CellVal.strV s) = true := by simp [pyTruthy, hs]
        have hok : okCell (CellVal.strV s) = false := by simp [okCell, hs]
        simp [ht, hok]

/-- The value computed by the outer column loop: the running total plus the
rectangle sum, provided every truthy cell of the rectangle is numeric;
otherwise none. -/
lemma sumColsT_fst (sheet : Sheet) (rows : List ℕ) :
    ∀ (cols : List ℕ) (acc : ℤ),
      (sumColsT sheet rows cols acc).1 =
        if cols.all (fun c => rows.all (fun r => okCell (sheet r c)))
        then some (acc + (cols.map (fun c => (rows.map (fun r => truthyVal (sheet r c))).sum)).sum)
        else none := by
  intro cols
  induction cols with
  | nil => intro acc; simp [sumColsT]
  | cons c rest ih =>
    intro acc
    simp only [sumColsT, List.all_cons, List.map_cons, List.sum_cons]
    rw [sumRowsT_fst]
    by_cases h : rows.all (fun r => okCell (sheet r c)) = true
    · rw [if_pos h]
      simp [h, ih]
      split_ifs with h2
      · congr 1
        ring
      · rfl
    · rw [if_neg h]
      have hb : rows.all (fun r => okCell (sheet r c)) = false := by
        cases hx : rows.all (fun r => okCell (sheet r c))
        · rfl
        · exact absurd hx h
      simp [hb]

/-- A permutation of a list leaves List.all unchanged. -/
lemma perm_all_eq {α : Type} (p : α → Bool) {l1 l2 : List α} (h : l1.Perm l2) :
    l1.all p = l2.all p := by
  have hiff : l1.all p = true ↔ l2.all p = true := by
    simp only [List.all_eq_true]
    constructor
    · intro ha x hx
      exact ha x (h.mem_iff.mpr hx)
    · intro ha x hx
      exact ha x (h.mem_iff.mp hx)
  cases h1 : l1.all p
  · cases h2 : l2.all p
    · rfl
    · exact absurd (hiff.mpr h2) (by simp [h1])
  · exact (hiff.mp h1).symm

/-- Replaying a trace that contains only reads leaves the sheet unchanged. -/
lemma applyOps_of_reads (sheet : Sheet) :
    ∀ ops : List SheetOp, ops.all isReadOp = true → applyOps sheet ops = sheet := by
  intro ops
  induction ops with
  | nil => intro _; rfl
  | cons op rest ih =>
    intro h
    simp only [List.all_cons, Bool.and_eq_true] at h
    cases op with
    | readOp r c => exact ih h.2
    | writeOp r c v => simp [isReadOp] at h

/-- The inner row loop performs reads only. -/
lemma sumRowsT_snd_reads (sheet : Sheet) (col : ℕ) :
    ∀ (rows : List ℕ) (acc : ℤ), (sumRowsT sheet col rows acc).2.all isReadOp = true := by
  intro rows
  induction rows with
  | nil => intro acc; simp [sumRowsT]
  | cons r rest ih =>
    intro acc
    simp only [sumRowsT]
    cases hv : sheet r col with
    | empty => simp [pyTruthy, isReadOp, ih]
    | intV n =>
      by_cases hn : n = 0
      · subst hn; simp [pyTruthy, isReadOp, ih]
      · have ht : pyTruthy (CellVal.intV n) = true := by simp [pyTruthy, hn]
        simp [ht, isReadOp, ih]
    | strV s =>
      by_cases hs : s = ""
      · subst hs; simp [pyTruthy, isReadOp, ih]
      · have ht : pyTruthy (CellVal.strV s) = true := by simp [pyTruthy, hs]
        simp [ht, isReadOp]

/-- The outer column loop performs reads only. -/
lemma sumColsT_snd_reads (sheet : Sheet) (rows : List ℕ) :
    ∀ (cols : List ℕ) (acc : ℤ), (sumColsT sheet rows cols acc).2.all isReadOp = true := by
  intro cols
  induction cols with
  | nil => intro acc; simp [sumColsT]
  | cons c rest ih =>
    intro acc
    simp only [sumColsT]
    cases hp : (sumRowsT sheet c rows acc).1 with
    | none =>
      simpa using sumRowsT_snd_reads sheet c rows acc
    | some acc2 =>
      simp only [List.all_append, Bool.and_eq_true]
      exact ⟨by simpa using sumRowsT_snd_reads sheet c rows acc, by simpa using ih acc2⟩

/-- If some column in the remaining scan range stops the loop, glmAux returns
the first such column. -/
lemma glmAux_fst_stop (sheet : Sheet) :
    ∀ (k c target : ℕ), c + k = 15 → c ≤ target → target ≤ 14 →
      stopCell (sheet 16 target) = true →
      (∀ j, c ≤ j → j < target → stopCell (sheet 16 j) = false) →
      (glmAux sheet k c).1 = target := by
  intro k
  induction k with
  | zero =>
    intro c target h1 h2 h3 _ _
    omega
  | succ k ih =>
    intro c target h1 h2 h3 hstop hmin
    simp only [glmAux]
    cases hc : stopCell (sheet 16 c) with
    | true =>
      have hct : c = target := by
        rcases Nat.lt_or_ge c target with hlt | hge
        · exact absurd hc (by simp [hmin c le_rfl hlt])
        · omega
      simp [hct]
    | false =>
      have hlt : c < target := by
        rcases Nat.lt_or_ge c target with hlt | hge
        · exact hlt
        · have : c = target := by omega
          rw [this] at hc
          rw [hc] at hstop
          exact absurd hstop (by simp)
      simp only [Bool.false_eq_true, if_false]
      exact ih (c + 1) target (by omega) (by omega) h3 hstop
        (fun j hj1 hj2 => hmin j (by omega) hj2)

/-- If no column in the remaining scan range stops the loop, glmAux returns
14, the final value of the loop variable. -/
lemma glmAux_fst_nostop (sheet : Sheet) :
    ∀ (k c : ℕ), c + k = 15 →
      (∀ j, c ≤ j → j ≤ 14 → stopCell (sheet 16 j) = false) →
      (glmAux sheet k c).1 = 14 := by
  intro k
  induction k with
  | zero => intro c _ _; rfl
  | succ k ih =>
    intro c h1 hall
    have hc : stopCell (sheet 16 c) = false := hall c le_rfl (by omega)
    simp only [glmAux, hc, Bool.false_eq_true, if_false]
    exact ih (c + 1) (by omega) (fun j hj1 hj2 => hall j (by omega) hj2)

/-- Rounding an integer leaves it unchanged. -/
lemma bankersRound_intCast (m : ℤ) : bankersRound (m : ℚ) = m := by
  unfold bankersRound
  rw [Int.floor_intCast]
  norm_num

/-- round(x, 2) on a value that is already an integer. -/
lemma roundTo2_intCast (n : ℤ) : roundTo2 ((n : ℚ)) = (n : ℚ) := by
  unfold roundTo2
  have h : ((n : ℚ)) * 100 = (((n * 100 : ℤ)) : ℚ) := by push_cast; ring
  rw [h, bankersRound_intCast]
  push_cast
  field_simp

/-- C8: for any sheet, any row set, and any column c, the read_cells loop over
the empty column range [c, c) returns 0: range(c, c) is empty, so no cell is
visited and the total stays at its initial value 0. -/
theorem sumRange_empty_range (sheet : Sheet) (rows : List ℕ) (c : ℕ) :
    sumRange sheet rows c c = some 0 := by
  simp [sumRange, read_cellsT, Nat.sub_self, sumColsT]

/-- C9: the read_cells loop yields the same total for any permutation of the
row set over which it iterates, for every sheet and column range. -/
theorem sumRange_perm_invariant (sheet : Sheet) (s l : ℕ) (rows rows2 : List ℕ)
    (h : rows.Perm rows2) : sumRange sheet rows s l = sumRange sheet rows2 s l := by
  unfold sumRange read_cellsT
  rw [sumColsT_fst, sumColsT_fst]
  have h1 : (fun c => rows.all (fun r => okCell (sheet r c)))
      = (fun c => rows2.all (fun r => okCell (sheet r c))) :=
    funext fun c => perm_all_eq _ h
  have h2 : (fun c => (rows.map (fun r => truthyVal (sheet r c))).sum)
      = (fun c => (rows2.map (fun r => truthyVal (sheet r c))).sum) :=
    funext fun c => (h.map _).sum_eq
  rw [h1, h2]

/-- C9 witness: the scenario sheet summed over the fixed rows and over a
transposition of them. -/
theorem sumRange_perm_invariant_witness :
    sumRange sheetA [16, 24, 39, 52] 3 6 = sumRange sheetA [24, 16, 39, 52] 3 6 :=
  sumRange_perm_invariant sheetA 3 6 [16, 24, 39, 52] [24, 16, 39, 52]
    (List.Perm.swap 24 16 [39, 52])

/-- C10: the read_cells loop only reads cells: its access trace contains no
write, and replaying the trace on any sheet leaves the sheet unchanged. -/
theorem read_cells_no_mutation (sheet : Sheet) (rows : List ℕ) (s l : ℕ) :
    (read_cellsT sheet rows s l).2.all isReadOp = true
    ∧ applyOps sheet (read_cellsT sheet rows s l).2 = sheet := by
  have h := sumColsT_snd_reads sheet rows (List.range' s (l - s)) 0
  exact ⟨h, applyOps_of_reads sheet _ h⟩

/-- A successful association-list lookup returns one of the stored values. -/
lemma lookup_some_mem_snd {l : List (String × ℕ)} {s : String} {c : ℕ} :
    l.lookup s = some c → c ∈ l.map Prod.snd := by
  induction l with
  | nil => intro h; exact Option.noConfusion h
  | cons p rest ih =>
    obtain ⟨k, v⟩ := p
    intro h
    simp only [List.lookup] at h
    cases hbe : (s == k) with
    | true =>
      rw [hbe] at h
      simp only [Option.some.injEq] at h
      simp [h]
    | false =>
      rw [hbe] at h
      simp only [List.map_cons, List.mem_cons]
      exact Or.inr (ih h)

/-- Lookup of a key that is not among the stored keys yields none. -/
lemma lookup_none_of_not_mem {l : List (String × ℕ)} {s : String} :
    s ∉ l.map Prod.fst → l.lookup s = none := by
  induction l with
  | nil => intro _; rfl
  | cons p rest ih =>
    obtain ⟨k, v⟩ := p
    intro hs
    simp only [List.map_cons, List.mem_cons] at hs
    push_neg at hs
    simp only [List.lookup]
    have hbe : (s == k) = false := beq_eq_false_iff_ne.mpr hs.1
    rw [hbe]
    exact ih hs.2

/-- C7: every recognized month abbreviation maps to exactly one column in the
range [3, 14]; synonymous tokens of the two language variants resolve to the
same column; an unrecognized token yields no mapping. -/
theorem month_to_col_spec :
    (∀ s c, month_to_col s = some c → 3 ≤ c ∧ c ≤ 14)
    ∧ (month_to_col "fev" = month_to_col "feb"
       ∧ month_to_col "fev" = some 4
       ∧ month_to_col "abr" = month_to_col "apr"
       ∧ month_to_col "mai" = month_to_col "may"
       ∧ month_to_col "ago" = month_to_col "aug"
       ∧ month_to_col "set" = month_to_col "sep"
       ∧ month_to_col "out" = month_to_col "oct"
       ∧ month_to_col "dez" = month_to_col "dec")
    ∧ (∀ s, s ∉ monthKeys → month_to_col s = none) := by
  refine ⟨?_, by decide, ?_⟩
  · intro s c h
    have hm : c ∈ monthPairs.map Prod.snd := lookup_some_mem_snd h
    have hall : ∀ x ∈ monthPairs.map Prod.snd, 3 ≤ x ∧ x ≤ 14 := by decide
    exact hall c hm
  · intro s hs
    exact lookup_none_of_not_mem hs

/-- C7 witness: the mapped column of a recognized token is in range, and the
token xyz is unmapped. -/
theorem month_to_col_spec_witness :
    (3 ≤ 4 ∧ 4 ≤ 14) ∧ month_to_col "xyz" = none :=
  ⟨month_to_col_spec.1 "fev" 4 (by decide), month_to_col_spec.2.2 "xyz" (by decide)⟩

/-- C3: get_last_month returns the first column of the scanned range 3..14
whose header-row cell is empty or has stripped string form "0", and returns
14 (the final value of the loop variable) when no column of the range stops
the scan; on the scenario header row [100, 50, 0, None, ...] it returns 5. -/
theorem get_last_month_spec :
    (∀ (sheet : Sheet) (c : ℕ), c ∈ List.range' 3 12 → stopCell (sheet 16 c) = true →
       (∀ j ∈ List.range' 3 12, j < c → stopCell (sheet 16 j) = false) →
       get_last_month sheet = c)
    ∧ (∀ sheet : Sheet, (∀ j ∈ List.range' 3 12, stopCell (sheet 16 j) = false) →
       get_last_month sheet = 14)
    ∧ get_last_month headerSheet = 5 := by
  refine ⟨?_, ?_, by decide⟩
  · intro sheet c hc hstop hmin
    rw [List.mem_range'_1] at hc
    exact glmAux_fst_stop sheet 12 3 c (by omega) (by omega) (by omega) hstop
      (fun j hj1 hj2 => hmin j (List.mem_range'_1.mpr ⟨hj1, by omega⟩) hj2)
  · intro sheet hall
    exact glmAux_fst_nostop sheet 12 3 (by omega)
      (fun j hj1 hj2 => hall j (List.mem_range'_1.mpr ⟨hj1, by omega⟩))

/-- C3 witness: on the all-empty sheet the very first scanned column stops
the loop. -/
theorem get_last_month_spec_witness : get_last_month emptySheet = 3 :=
  get_last_month_spec.1 emptySheet 3 (by decide) (by decide) (by decide)

/-- C2: whenever every truthy cell of the rectangle is numeric, the
read_cells total is the sum of exactly the truthy cell values there; on the
scenario sheets, participant A sums to 45 and participant B to 0 over
columns 3 to 5, and the balance is 45 = 45.00 with the message that person 2
(participant B) owes person 1 (participant A) the amount 45. -/
theorem read_cells_sums_truthy :
    (∀ (sheet : Sheet) (s l : ℕ),
       (∀ c ∈ List.range' s (l - s), ∀ r ∈ row_number, okCell (sheet r c) = true) →
       read_cells sheet s l = some (rectTruthySum sheet row_number s l))
    ∧ read_cells sheetA 3 6 = some 45
    ∧ read_cells sheetB 3 6 = some 0
    ∧ computeBalance 45 0 = (45, BalanceMsg.owes2to1 45) := by
  refine ⟨?_, by decide, by decide, ?_⟩
  · intro sheet s l h
    unfold read_cells sumRange read_cellsT rectTruthySum
    have hcond : ((List.range' s (l - s)).all
        (fun c => row_number.all fun r => okCell (sheet r c))) = true := by
      rw [List.all_eq_true]
      intro c hc
      rw [List.all_eq_true]
      intro r hr
      exact h c hc r hr
    rw [sumColsT_fst, if_pos hcond, zero_add]
  · have h45 : (45 : ℚ) - 0 = ((45 : ℤ) : ℚ) := by norm_num
    unfold computeBalance balanceMessage
    rw [h45, roundTo2_intCast]
    norm_num

/-- C2 witness: the universal part applied to the scenario sheet. -/
theorem read_cells_sums_truthy_witness :
    read_cells sheetA 3 6 = some (rectTruthySum sheetA row_number 3 6) :=
  read_cells_sums_truthy.1 sheetA 3 6 (by decide)

/-- The signed value at totals 0 and 5 is negative. -/
lemma computeBalance_0_5_neg : (computeBalance 0 5).1 < 0 := by
  have h : (0 : ℚ) - 5 = ((-5 : ℤ) : ℚ) := by norm_num
  unfold computeBalance
  rw [h, roundTo2_intCast]
  norm_num

/-- C1 counterexample: at totals 0 and 5 the signed value is negative, yet
the printed message does not carry abs(signed_value): it carries the
negative value itself. -/
theorem computeBalance_abs_counterexample :
    (computeBalance 0 5).1 < 0
    ∧ (computeBalance 0 5).2 ≠ BalanceMsg.owes1to2 |(computeBalance 0 5).1| := by
  have h : (0 : ℚ) - 5 = ((-5 : ℤ) : ℚ) := by norm_num
  unfold computeBalance balanceMessage
  rw [h, roundTo2_intCast]
  norm_num

/-- C1 amended: signed_value = round(total_a - total_b, 2); when it is
positive the message states that person 2 (participant B) owes person 1
(participant A) the amount signed_value; when it is negative the message
states that person 1 owes person 2, but the amount it carries is
signed_value itself, the negative number printed as-is, not its absolute
value. -/
theorem computeBalance_message_spec (a b : ℚ) :
    (computeBalance a b).1 = roundTo2 (a - b)
    ∧ (0 < (computeBalance a b).1 →
        (computeBalance a b).2 = BalanceMsg.owes2to1 ((computeBalance a b).1))
    ∧ ((computeBalance a b).1 < 0 →
        (computeBalance a b).2 = BalanceMsg.owes1to2 ((computeBalance a b).1)) := by
  refine ⟨rfl, ?_, ?_⟩
  · intro h
    unfold computeBalance balanceMessage at h ⊢
    simp only at h ⊢
    rw [if_pos h]
  · intro h
    unfold computeBalance balanceMessage at h ⊢
    simp only at h ⊢
    rw [if_neg (not_lt_of_gt (by simpa using h)), if_pos h]

/-- C1 witness: the negative branch of the amended statement at totals 0
and 5. -/
theorem computeBalance_message_spec_witness :
    (computeBalance 0 5).2 = BalanceMsg.owes1to2 ((computeBalance 0 5).1) :=
  (computeBalance_message_spec 0 5).2.2 computeBalance_0_5_neg

/-- C6: with equal totals the signed value is zero, but the printed message
is absent: the source has no branch for a zero final_value, so nothing
states that the balances are equal. -/
theorem computeBalance_equal_no_message :
    (computeBalance 1 1).1 = 0 ∧ (computeBalance 1 1).2 = BalanceMsg.noMsg := by
  have h : (1 : ℚ) - 1 = ((0 : ℤ) : ℚ) := by norm_num
  unfold computeBalance balanceMessage
  rw [h, roundTo2_intCast]
  norm_num

/-- C5: the excel_work module binds no name main_function (its only entry
point is main), so the expenses command of the bot, which calls
excel_work.main_function(month), raises AttributeError on every invocation
and always replies with the error message, never a balance. -/
theorem expenses_always_error :
    excelWorkHasAttr "main_function" = false
    ∧ excelWorkHasAttr "main" = true
    ∧ ∀ month : String, expensesCommand month = BotReply.error := by
  refine ⟨by decide, by decide, ?_⟩
  intro month
  unfold expensesCommand
  rw [show excelWorkHasAttr "main_function" = false from by decide]
  simp

/-- C4: a run of main with the unrecognized month token xyz: the spreadsheet
is downloaded and its header cells are read before the month is examined,
and the outcome is an uncaught TypeError (start_col = None reaching
range()), not an error response naming the valid tokens. -/
theorem main_unrecognized_month_accesses_spreadsheet :
    mainRun wbEx "sheet1" "sheet2" "xyz"
      = (MainOutcome.pyError,
         [MainEvent.download, MainEvent.cellRead "sheet1" 16 3,
          MainEvent.cellRead "sheet1" 16 4]) := by
  decide
